import Mathlib

set_option maxRecDepth 100000

/-!
Verification of the QQbot webhook endpoint (Space-ash/QQbot).

The repository is a QQ-bot webhook: `qqbot_webhook.py` is the FastAPI endpoint
(`qqbot_callback`); `webhook_handler.py` and `qqbot_utils.py` are a refactored
split of the same logic (`seed_from_secret`, `verify_event_signature`,
`handle_op_13_challenge`, `handle_event`, `build_message_payload`, ...).

Embedding conventions:
- Python `bytes` and `str` values are both embedded as `List Nat`; a `str` is
  represented by its UTF-8 byte encoding (`utf8` below), so `s.encode("utf-8")`
  is the identity and `(a + b).encode("utf-8") = a.encode() + b.encode()` is
  the plain list append.
- JSON values (the result of `json.loads`) are the inductive `Json`; a parsed
  dict is an association list with distinct keys.  `json.loads` itself is a
  stdlib collaborator and is abstracted as a parameter
  `parse : List Nat → Option Json` of the endpoint.
- PyNaCl's Ed25519 is a library collaborator, modelled as an idealized
  deterministic signature scheme: `nacl_sign seed msg = seed ++ msg`, and
  verification succeeds exactly on the signature produced by the matching key
  over the same message.  This captures correctness plus (strong, perfect)
  unforgeability, which is the contract the code relies on.  PyNaCl's internal
  64-byte length validation of signatures is not modelled.
- Exceptions are explicit: `raise HTTPException(status, detail)` becomes the
  outcome `httpError status detail`; a Python exception that escapes the
  endpoint (and which FastAPI would translate into a 500 response) becomes the
  outcome `pyError`.
- `write_log` file I/O is modelled as a pure trace of `LogEntry` values where a
  claim depends on it (the `qqbot_utils` dispatch functions); log messages
  whose content is runtime-dependent (`vars(http)` and the like) are kept as
  fixed placeholder entries with the correct level.
-/

/-! ## Byte strings and UTF-8 -/

/-- UTF-8 encoding of a single Unicode code point (standard 1-4 byte format),
as produced by Python `str.encode("utf-8")` per character. -/
def utf8Char (c : Nat) : List Nat :=
  if c < 0x80 then [c]
  else if c < 0x800 then [0xC0 + c / 0x40, 0x80 + c % 0x40]
  else if c < 0x10000 then
    [0xE0 + c / 0x1000, 0x80 + c / 0x40 % 0x40, 0x80 + c % 0x40]
  else
    [0xF0 + c / 0x40000, 0x80 + c / 0x1000 % 0x40, 0x80 + c / 0x40 % 0x40, 0x80 + c % 0x40]

/-- UTF-8 encoding of a string, the embedding of Python `str` values:
`utf8 s` is `s.encode("utf-8")` as a list of byte values. -/
def utf8 (s : String) : List Nat := s.data.flatMap (fun c => utf8Char c.toNat)

/-- All entries of a list are byte values (fit in one octet). -/
def isBytes (bs : List Nat) : Prop := ∀ b ∈ bs, b < 256

instance (bs : List Nat) : Decidable (isBytes bs) := by
  unfold isBytes; infer_instance

/-! ## Hex encoding and decoding

`bytes.hex()` produces two lowercase hex digits per byte; `bytes.fromhex`
accepts pairs of hex digits (either case) with optional ASCII spaces between
pairs, and fails on anything else. -/

/-- Value of one hex digit character (by ASCII code), accepting both cases;
`none` for a non-hex-digit character. -/
def hexDigitVal? (c : Nat) : Option Nat :=
  if 48 ≤ c ∧ c ≤ 57 then some (c - 48)
  else if 97 ≤ c ∧ c ≤ 102 then some (c - 87)
  else if 65 ≤ c ∧ c ≤ 70 then some (c - 55)
  else none

/-- Model of Python `bytes.fromhex` on the character codes of the input string:
spaces may separate byte pairs, each byte is two adjacent hex digits;
any other shape fails (`ValueError`, here `none`). -/
def fromhex? : List Nat → Option (List Nat)
  | [] => some []
  | c :: rest =>
    if c = 32 then fromhex? rest
    else
      match rest with
      | [] => none
      | c2 :: rest2 =>
        match hexDigitVal? c, hexDigitVal? c2 with
        | some hi, some lo => (fromhex? rest2).map (fun bs => (16 * hi + lo) :: bs)
        | _, _ => none

/-- Lowercase hex digit character (ASCII code) for a value below 16,
as produced by Python `bytes.hex()`. -/
def hexChar (n : Nat) : Nat := if n < 10 then 48 + n else 87 + n

/-- Model of Python `bytes.hex()`: two lowercase hex digit characters per
byte. -/
def toHex (bs : List Nat) : List Nat :=
  bs.flatMap (fun b => [hexChar (b / 16), hexChar (b % 16)])

/-! ## Seed derivation (`seed_from_secret`)

`qqbot_webhook.py` lines 44-56 and `webhook_handler.py` lines 39-46 contain
the same function:

    if not secret: raise RuntimeError("BOT_SECRET is empty")
    b = secret.encode("utf-8")
    while len(b) < 32: b = b + b
    return b[:32]

The secret is given here as its UTF-8 byte encoding (`secret.encode` is the
identity under the embedding; a Python string is empty iff its UTF-8 encoding
is). -/

/-- The `while len(b) < 32: b = b + b` loop.  The `b = []` guard only marks the
input on which the Python loop would not terminate; it is unreachable because
the caller has already rejected the empty secret. -/
def padLoop (b : List Nat) : List Nat :=
  if b = [] then b
  else if b.length < 32 then padLoop (b ++ b)
  else b
termination_by 32 - b.length
decreasing_by
  rename_i h1 h2
  have hpos : 0 < b.length := List.length_pos.mpr h1
  simp only [List.length_append]
  omega

/-- Embedding of `seed_from_secret` (identical in `qqbot_webhook.py` and
`webhook_handler.py`): reject the empty secret, then double the byte string
until it has at least 32 bytes and truncate to the first 32. -/
def seed_from_secret (secret : List Nat) : Except String (List Nat) :=
  if secret = [] then .error "BOT_SECRET is empty"
  else .ok ((padLoop secret).take 32)

/-- Self-concatenation iterated `k` times: the state of the loop variable `b`
after `k` rounds of `b = b + b`. -/
def iterDouble (b : List Nat) : Nat → List Nat
  | 0 => b
  | k + 1 => iterDouble (b ++ b) k

/-! ## JSON values

The result of `json.loads`: strings are UTF-8 byte lists under the embedding,
objects are association lists with distinct keys (as produced by the parser),
numbers are integers (no claim involves fractional numbers). -/

inductive Json where
  | null : Json
  | bool (b : Bool) : Json
  | num (n : Int) : Json
  | str (s : List Nat) : Json
  | arr (xs : List Json) : Json
  | obj (fields : List (List Nat × Json)) : Json

/-- Lookup of a key in a parsed JSON object, `payload.get(k)` without a
default: `none` when the key is absent. -/
def jlookup (fields : List (List Nat × Json)) (k : List Nat) : Option Json :=
  (fields.find? (fun kv => kv.1 == k)).map (fun kv => kv.2)

/-- Python `dict.get(k, default)`. -/
def pyGet (fields : List (List Nat × Json)) (k : List Nat) (default : Json) : Json :=
  (jlookup fields k).getD default

/-- Python truthiness of a JSON value (`bool(v)`): `None`, `False`, `0`, empty
string/list/dict are falsy. -/
def truthy : Json → Bool
  | .null => false
  | .bool b => b
  | .num n => n != 0
  | .str s => !s.isEmpty
  | .arr xs => !xs.isEmpty
  | .obj fs => !fs.isEmpty

/-- Python `==` between a JSON value and an integer literal: numbers compare
numerically, and Python `bool` is an `int` subtype (`False == 0`,
`True == 1`); every other type compares unequal. -/
def pyEqInt (v : Json) (m : Int) : Bool :=
  match v with
  | .num n => n == m
  | .bool b => (if b then (1 : Int) else 0) == m
  | _ => false

/-- Python `payload.get("op") == m`: an absent key gives `None`, which is
unequal to any integer. -/
def pyEqOpt (v : Option Json) (m : Int) : Bool :=
  match v with
  | some j => pyEqInt j m
  | none => false

/-! ## Idealized Ed25519 (PyNaCl `SigningKey` / `VerifyKey`)

The keypair is determined by the 32-byte seed; the verify key of
`SigningKey(seed)` is identified with the seed.  Signing is modelled as the
perfectly binding ideal scheme: the signature over `msg` under `seed`
determines both, and verification succeeds exactly on that signature. -/

/-- Idealized `SigningKey(seed).sign(msg).signature`. -/
def nacl_sign (seed msg : List Nat) : List Nat := seed ++ msg

/-- Idealized `VerifyKey.verify(msg, sig)`: `true` means the call returns,
`false` means it raises `BadSignatureError`. -/
def nacl_verify (seed msg sig : List Nat) : Bool := sig == seed ++ msg

/-! ## Dispatch traces

Observable effects of one request: handler invocations (the data handed to
`MyClient`, i.e. the `event_id` and the `MessagePayload` built for the
message object) and log entries. -/

/-- One invocation of the bot client handler: `C2CMessage(api, event_id,
payload)` / `GroupMessage(api, event_id, payload)` carries exactly this
data to the handler. -/
structure HandlerCall where
  eventId : Json
  payload : List (List Nat × Json)

/-- One `write_log(level, msg)` call. -/
inductive LogEntry where
  | info (msg : List Nat)
  | error (msg : List Nat)

/-- Result of a `qqbot_utils` dispatch function: whether it returned normally
or let an exception escape, plus its observable trace. -/
structure DispatchResult where
  result : Except Unit Unit
  logs : List LogEntry
  handlerCalls : List HandlerCall

/-! ## `qqbot_utils.py` -/

namespace QQbotUtils

/-- Embedding of `qqbot_utils.build_message_payload` (lines 27-53): fixed keys
with defaults for the ones the event may lack, plus pass-through of
`group_openid` and `msg_seq` when present. -/
def build_message_payload (event : List (List Nat × Json)) : List (List Nat × Json) :=
  let base : List (List Nat × Json) := [
    (utf8 "author", pyGet event (utf8 "author") (.obj [])),
    (utf8 "channel_id", pyGet event (utf8 "channel_id") (.str [])),
    (utf8 "content", pyGet event (utf8 "content") (.str [])),
    (utf8 "guild_id", pyGet event (utf8 "guild_id") (.str [])),
    (utf8 "id", pyGet event (utf8 "id") (.str [])),
    (utf8 "member", pyGet event (utf8 "member") (.obj [])),
    (utf8 "message_reference", pyGet event (utf8 "message_reference") (.obj [])),
    (utf8 "mentions", pyGet event (utf8 "mentions") (.arr [])),
    (utf8 "attachments", pyGet event (utf8 "attachments") (.arr [])),
    (utf8 "seq", pyGet event (utf8 "seq") (.num 0)),
    (utf8 "seq_in_channel", pyGet event (utf8 "seq_in_channel") (.str [])),
    (utf8 "timestamp", pyGet event (utf8 "timestamp") (.str []))]
  let withGroup := if (jlookup event (utf8 "group_openid")).isSome
    then base ++ [(utf8 "group_openid", pyGet event (utf8 "group_openid") .null)]
    else base
  if (jlookup event (utf8 "msg_seq")).isSome
    then withGroup ++ [(utf8 "msg_seq", pyGet event (utf8 "msg_seq") .null)]
    else withGroup

/-- Embedding of `qqbot_utils.handle_c2c_message` (lines 78-120), with
`write_log` present (as `dispatch_event` passes it).  `onC2c` is the opaque
bot-client collaborator `MyClient.on_c2c_message_create`; `.error` means it
raised.  All work is inside `try`: an exception is logged at ERROR level and
re-raised (the trailing bare `raise`); an event that is not a dict raises at
`event.get("id", "")` before any handler call.  The `vars(http)` / `vars(api)`
log messages are runtime-dependent and kept as fixed placeholders. -/
def handle_c2c_message (onC2c : Json → List (List Nat × Json) → Except Unit Unit)
    (event : Json) : DispatchResult :=
  match event with
  | .obj ed =>
    let event_id := pyGet ed (utf8 "id") (.str [])
    let mp := build_message_payload ed
    match onC2c event_id mp with
    | .ok _ =>
      ⟨.ok (), [.info (utf8 "=== 进入 handle_c2c_message ==="),
        .info (utf8 "http vars: <runtime>"), .info (utf8 "api vars: <runtime>"),
        .info (utf8 "handle_c2c_message 执行完成")], [⟨event_id, mp⟩]⟩
    | .error _ =>
      ⟨.error (), [.info (utf8 "=== 进入 handle_c2c_message ==="),
        .info (utf8 "http vars: <runtime>"), .info (utf8 "api vars: <runtime>"),
        .error (utf8 "handle_c2c_message 异常: <runtime>")], [⟨event_id, mp⟩]⟩
  | _ =>
    ⟨.error (), [.info (utf8 "=== 进入 handle_c2c_message ==="),
      .error (utf8 "handle_c2c_message 异常: <runtime>")], []⟩

/-- Embedding of `qqbot_utils.handle_group_at_message` (lines 123-165),
structured exactly like `handle_c2c_message` with the group collaborator. -/
def handle_group_at_message (onGroup : Json → List (List Nat × Json) → Except Unit Unit)
    (event : Json) : DispatchResult :=
  match event with
  | .obj ed =>
    let event_id := pyGet ed (utf8 "id") (.str [])
    let mp := build_message_payload ed
    match onGroup event_id mp with
    | .ok _ =>
      ⟨.ok (), [.info (utf8 "=== 进入 handle_group_at_message ==="),
        .info (utf8 "http vars: <runtime>"), .info (utf8 "api vars: <runtime>"),
        .info (utf8 "handle_group_at_message 执行完成")], [⟨event_id, mp⟩]⟩
    | .error _ =>
      ⟨.error (), [.info (utf8 "=== 进入 handle_group_at_message ==="),
        .info (utf8 "http vars: <runtime>"), .info (utf8 "api vars: <runtime>"),
        .error (utf8 "handle_group_at_message 异常: <runtime>")], [⟨event_id, mp⟩]⟩
  | _ =>
    ⟨.error (), [.info (utf8 "=== 进入 handle_group_at_message ==="),
      .error (utf8 "handle_group_at_message 异常: <runtime>")], []⟩

/-- Embedding of `qqbot_utils.handle_event` (lines 60-75): branch on the event
type string; unknown types are logged once at INFO level and the call returns
normally. -/
def handle_event (onC2c onGroup : Json → List (List Nat × Json) → Except Unit Unit)
    (event_type : List Nat) (event : Json) : DispatchResult :=
  if event_type = utf8 "C2C_MESSAGE_CREATE" then handle_c2c_message onC2c event
  else if event_type = utf8 "GROUP_AT_MESSAGE_CREATE" then handle_group_at_message onGroup event
  else ⟨.ok (), [.info (utf8 "[qqbot_utils] 未处理的事件类型: " ++ event_type)], []⟩

end QQbotUtils

/-! ## HTTP outcomes -/

/-- The HTTP-visible result of one request: a challenge JSON response, an empty
200 ACK, a raised `HTTPException`, or a Python exception escaping the endpoint
(which FastAPI surfaces as a 500 response). -/
inductive Outcome where
  | json200 (plainToken signature : List Nat)
  | empty200
  | httpError (status : Nat) (detail : String)
  | pyError
deriving DecidableEq

/-! ## `webhook_handler.py` -/

namespace WebhookHandler

/-- Embedding of `webhook_handler.verify_event_signature` (lines 81-98): read
the two signature headers with `""` as default for an absent header, reject
when either is empty, hex-decode the signature, verify over
`ts.encode("utf-8") + raw`.  `.error (s, d)` is `raise HTTPException(s, d)`. -/
def verify_event_signature (key raw : List Nat)
    (sigHeader tsHeader : Option (List Nat)) : Except (Nat × String) Unit :=
  let sig_hex := sigHeader.getD []
  let ts := tsHeader.getD []
  if sig_hex = [] ∨ ts = [] then .error (401, "missing signature headers")
  else
    match fromhex? sig_hex with
    | none => .error (401, "bad signature hex")
    | some sig =>
      if nacl_verify key (ts ++ raw) sig then .ok ()
      else .error (401, "signature verify failed")

end WebhookHandler

/-! ## `qqbot_webhook.py` (the FastAPI endpoint)

`qqbot_callback` is one `async def`; it is embedded here in sections named
after the source's own comment blocks, composed at the end.  The stdlib
`json.loads` (plus the UTF-8 decode of the body) is the parameter `parse`,
and the bot client collaborator `MyClient.on_c2c_message_create` is the
parameter `onC2c`. -/

namespace QQbotWebhook

/-- An inbound HTTP request: exact body bytes and the two signature headers
(`none` when the header is absent). -/
structure Request where
  raw : List Nat
  sigHeader : Option (List Nat)
  tsHeader : Option (List Nat)

/-- Result of one request: the HTTP outcome, the `(t, d)` pairs that reached
the dispatch section (lines 131-153), and the handler invocations. -/
structure CallResult where
  outcome : Outcome
  dispatched : List (Json × Json)
  handlerCalls : List HandlerCall

/-- Embedding of `qqbot_webhook.build_message_payload` (lines 59-74): twelve
fixed keys with defaults (this copy has no `group_openid`/`msg_seq`
pass-through). -/
def build_message_payload (event : List (List Nat × Json)) : List (List Nat × Json) := [
  (utf8 "author", pyGet event (utf8 "author") (.obj [])),
  (utf8 "channel_id", pyGet event (utf8 "channel_id") (.str [])),
  (utf8 "content", pyGet event (utf8 "content") (.str [])),
  (utf8 "guild_id", pyGet event (utf8 "guild_id") (.str [])),
  (utf8 "id", pyGet event (utf8 "id") (.str [])),
  (utf8 "member", pyGet event (utf8 "member") (.obj [])),
  (utf8 "message_reference", pyGet event (utf8 "message_reference") (.obj [])),
  (utf8 "mentions", pyGet event (utf8 "mentions") (.arr [])),
  (utf8 "attachments", pyGet event (utf8 "attachments") (.arr [])),
  (utf8 "seq", pyGet event (utf8 "seq") (.num 0)),
  (utf8 "seq_in_channel", pyGet event (utf8 "seq_in_channel") (.str [])),
  (utf8 "timestamp", pyGet event (utf8 "timestamp") (.str []))]

/-- The value of `d = payload.get("d") or {}` (line 101): an absent key gives
`None`, and any falsy value is replaced by the empty dict. -/
def challengeDict (fields : List (List Nat × Json)) : Json :=
  let d0 := (jlookup fields (utf8 "d")).getD .null
  if truthy d0 then d0 else .obj []

/-- The op = 13 branch (lines 99-109): extract `plain_token` and `event_ts`
with `""` defaults, sign `event_ts + plain_token`, answer with the JSON body.
A non-dict truthy `d` raises at `d.get` (AttributeError); a non-string field
raises at the `+` / `.encode` (TypeError); both escape the endpoint. -/
def op13Branch (key : List Nat) (fields : List (List Nat × Json)) : CallResult :=
  match challengeDict fields with
  | .obj dd =>
    match pyGet dd (utf8 "plain_token") (.str []), pyGet dd (utf8 "event_ts") (.str []) with
    | .str pt, .str ets => ⟨.json200 pt (toHex (nacl_sign key (ets ++ pt))), [], []⟩
    | _, _ => ⟨.pyError, [], []⟩
  | _ => ⟨.pyError, [], []⟩

/-- The dispatch section of the op = 0 branch after successful verification
(lines 131-153): extract `d` and `t` with defaults, and on
`C2C_MESSAGE_CREATE` build the message payload and invoke the bot client.
An exception raised by the handler is not caught anywhere in the endpoint.
A non-dict `d` raises at `event.get("id", "")`. -/
def dispatchSection (onC2c : Json → List (List Nat × Json) → Except Unit Unit)
    (fields : List (List Nat × Json)) : CallResult :=
  let event := pyGet fields (utf8 "d") (.obj [])
  let event_type := pyGet fields (utf8 "t") (.str [])
  match event_type with
  | .str s =>
    if s = utf8 "C2C_MESSAGE_CREATE" then
      match event with
      | .obj ed =>
        let event_id := pyGet ed (utf8 "id") (.str [])
        match onC2c event_id (build_message_payload ed) with
        | .ok _ => ⟨.empty200, [(event_type, event)], [⟨event_id, build_message_payload ed⟩]⟩
        | .error _ => ⟨.pyError, [(event_type, event)], [⟨event_id, build_message_payload ed⟩]⟩
      | _ => ⟨.pyError, [(event_type, event)], []⟩
    else ⟨.empty200, [(event_type, event)], []⟩
  | _ => ⟨.empty200, [(event_type, event)], []⟩

/-- The op = 0 branch (lines 112-153): read the signature headers with `""`
defaults, reject empty ones, hex-decode, verify `ts.encode("utf-8") + raw`,
then dispatch. -/
def op0Branch (key : List Nat) (onC2c : Json → List (List Nat × Json) → Except Unit Unit)
    (req : Request) (fields : List (List Nat × Json)) : CallResult :=
  let sig_hex := req.sigHeader.getD []
  let ts := req.tsHeader.getD []
  if sig_hex = [] ∨ ts = [] then ⟨.httpError 401 "missing signature headers", [], []⟩
  else
    match fromhex? sig_hex with
    | none => ⟨.httpError 401 "bad signature hex", [], []⟩
    | some sig =>
      if nacl_verify key (ts ++ req.raw) sig then dispatchSection onC2c fields
      else ⟨.httpError 401 "signature verify failed", [], []⟩

/-- The operation-code branch over a parsed dict payload (lines 96-156):
`op == 13`, then `op == 0`, then the final ACK for every other op. -/
def objBranch (key : List Nat) (onC2c : Json → List (List Nat × Json) → Except Unit Unit)
    (req : Request) (fields : List (List Nat × Json)) : CallResult :=
  if pyEqOpt (jlookup fields (utf8 "op")) 13 then op13Branch key fields
  else if pyEqOpt (jlookup fields (utf8 "op")) 0 then op0Branch key onC2c req fields
  else ⟨.empty200, [], []⟩

/-- Embedding of the endpoint `qqbot_callback` (lines 83-156): read the raw
body, parse it (failure → 400), then branch on `op`.  `payload.get("op")` on
a JSON value that is not a dict raises AttributeError, which escapes the
endpoint. -/
def qqbot_callback (key : List Nat) (parse : List Nat → Option Json)
    (onC2c : Json → List (List Nat × Json) → Except Unit Unit) (req : Request) : CallResult :=
  match parse req.raw with
  | none => ⟨.httpError 400 "invalid json", [], []⟩
  | some (.obj fields) => objBranch key onC2c req fields
  | some _ => ⟨.pyError, [], []⟩

end QQbotWebhook

/-! ## Concrete fixtures

Closed inputs used by counterexample and witness theorems.  `parseFix` is
`json.loads` restricted to the concrete bodies below: each body is the actual
JSON text whose parse is the given value (`123` and `125` are the byte values
of the two curly braces). -/

namespace Fixtures

/-- A 32-byte signing seed. -/
def keyEx : List Nat := List.replicate 32 1

/-- A bot-client collaborator whose handler returns normally. -/
def handlerOk : Json → List (List Nat × Json) → Except Unit Unit := fun _ _ => .ok ()

/-- A bot-client collaborator whose handler raises. -/
def handlerBoom : Json → List (List Nat × Json) → Except Unit Unit := fun _ _ => .error ()

/-- Body `5`: valid JSON that is not an object. -/
def bodyNum : List Nat := utf8 "5"

/-- Body `{"op":13,"d":5}`: a challenge payload whose `d` is a truthy
non-dict. -/
def bodyChal : List Nat := [123] ++ utf8 "\"op\":13,\"d\":5" ++ [125]

/-- Body `{"op":13}`: a challenge payload with no `d` at all. -/
def bodyChalOk : List Nat := [123] ++ utf8 "\"op\":13" ++ [125]

/-- Body `{"op":7}`: a parsed payload with an unrecognized operation code. -/
def bodyOp7 : List Nat := [123] ++ utf8 "\"op\":7" ++ [125]

/-- The event data `{"id":"m1","content":"hi"}`. -/
def dEx : List (List Nat × Json) :=
  [(utf8 "id", .str (utf8 "m1")), (utf8 "content", .str (utf8 "hi"))]

/-- The parsed payload `{"op":0,"t":"C2C_MESSAGE_CREATE","d":{"id":"m1","content":"hi"}}`. -/
def payloadC2C : Json :=
  .obj [(utf8 "op", .num 0), (utf8 "t", .str (utf8 "C2C_MESSAGE_CREATE")), (utf8 "d", .obj dEx)]

/-- Body text of `payloadC2C`. -/
def bodyC2C : List Nat :=
  [123] ++ utf8 "\"op\":0,\"t\":\"C2C_MESSAGE_CREATE\",\"d\":" ++ [123]
    ++ utf8 "\"id\":\"m1\",\"content\":\"hi\"" ++ [125, 125]

/-- Body `oops`: not valid JSON. -/
def bodyBad : List Nat := utf8 "oops"

/-- `json.loads` restricted to the fixture bodies: each maps to exactly the
value `json.loads` returns for that byte string; everything else (including
`bodyBad`) fails to parse. -/
def parseFix (raw : List Nat) : Option Json :=
  if raw = bodyNum then some (.num 5)
  else if raw = bodyChal then some (.obj [(utf8 "op", .num 13), (utf8 "d", .num 5)])
  else if raw = bodyChalOk then some (.obj [(utf8 "op", .num 13)])
  else if raw = bodyOp7 then some (.obj [(utf8 "op", .num 7)])
  else if raw = bodyC2C then some payloadC2C
  else none

/-- A timestamp header value. -/
def tsEx : List Nat := utf8 "1700000000"

/-- The valid signature header for `bodyC2C` under `keyEx` and `tsEx`. -/
def sigHexC2C : List Nat := toHex (nacl_sign keyEx (tsEx ++ bodyC2C))

/-- A fully valid `op=0` `C2C_MESSAGE_CREATE` request. -/
def reqC2C : QQbotWebhook.Request := ⟨bodyC2C, some sigHexC2C, some tsEx⟩

end Fixtures

/-! ## Helper lemmas -/

theorem hexDigitVal_hexChar (d : Nat) (hd : d < 16) :
    hexDigitVal? (hexChar d) = some d := by
  unfold hexChar hexDigitVal?
  rcases Nat.lt_or_ge d 10 with h | h
  · rw [if_pos h, if_pos (by omega)]
    exact congrArg some (by omega)
  · rw [if_neg (show ¬ d < 10 by omega), if_neg (by omega), if_pos (by omega)]
    exact congrArg some (by omega)

theorem hexChar_ne_space (d : Nat) : hexChar d ≠ 32 := by
  unfold hexChar
  split <;> omega

/-- Round trip: decoding the lowercase hex encoding of a byte string yields the
byte string back. -/
theorem fromhex_toHex (bs : List Nat) (h : isBytes bs) : fromhex? (toHex bs) = some bs := by
  induction bs with
  | nil => rfl
  | cons b tl ih =>
    have hb : b < 256 := h b (List.mem_cons_self b tl)
    have htl : isBytes tl := fun x hx => h x (List.mem_cons_of_mem b hx)
    have hhi : b / 16 < 16 := by omega
    have hlo : b % 16 < 16 := Nat.mod_lt _ (by omega)
    show fromhex? (hexChar (b / 16) :: hexChar (b % 16) :: toHex tl) = some (b :: tl)
    unfold fromhex?
    rw [if_neg (hexChar_ne_space _)]
    simp only [hexDigitVal_hexChar _ hhi, hexDigitVal_hexChar _ hlo, ih htl]
    have hb16 : 16 * (b / 16) + b % 16 = b := by omega
    rw [hb16]
    rfl

theorem toHex_ne_nil (bs : List Nat) (h : bs ≠ []) : toHex bs ≠ [] := by
  cases bs with
  | nil => exact absurd rfl h
  | cons b tl => simp [toHex]

theorem isBytes_append (a b : List Nat) (ha : isBytes a) (hb : isBytes b) :
    isBytes (a ++ b) := by
  intro x hx
  rcases List.mem_append.mp hx with h | h
  · exact ha x h
  · exact hb x h

theorem iterDouble_succ_outer (b : List Nat) (k : Nat) :
    iterDouble b (k + 1) = iterDouble (b ++ b) k := rfl

theorem iterDouble_length (b : List Nat) (k : Nat) :
    (iterDouble b k).length = 2 ^ k * b.length := by
  induction k generalizing b with
  | zero => simp [iterDouble]
  | succ k ih =>
    rw [iterDouble_succ_outer, ih]
    simp only [List.length_append]
    ring

/-- The padding loop computes some iterated self-concatenation: a number of
rounds after which the length is at least 32, and each earlier round still had
length below 32 (the loop guard). -/
theorem padLoop_eq_iterDouble (n : Nat) :
    ∀ b : List Nat, b ≠ [] → 32 - b.length ≤ n →
      ∃ k, padLoop b = iterDouble b k ∧ 32 ≤ (iterDouble b k).length ∧
        ∀ j < k, (iterDouble b j).length < 32 := by
  induction n with
  | zero =>
    intro b hne hlen
    refine ⟨0, ?_, by simp only [iterDouble]; omega, by intro j hj; omega⟩
    rw [padLoop, if_neg hne, if_neg (by omega)]
    rfl
  | succ n ih =>
    intro b hne hlen
    by_cases hshort : b.length < 32
    · have hpos : 0 < b.length := List.length_pos.mpr hne
      have hbb : (b ++ b) ≠ [] := by
        intro hcontra
        have hlc := congrArg List.length hcontra
        simp only [List.length_append, List.length_nil] at hlc
        omega
      have hbblen : 32 - (b ++ b).length ≤ n := by
        simp only [List.length_append]
        omega
      obtain ⟨k, hpad, hge, hmin⟩ := ih (b ++ b) hbb hbblen
      refine ⟨k + 1, ?_, ?_, ?_⟩
      · rw [padLoop, if_neg hne, if_pos hshort, hpad, iterDouble_succ_outer]
      · rwa [iterDouble_succ_outer]
      · intro j hj
        cases j with
        | zero => simpa [iterDouble] using hshort
        | succ j =>
          rw [iterDouble_succ_outer]
          exact hmin j (by omega)
    · refine ⟨0, ?_, by simp only [iterDouble]; omega, by intro j hj; omega⟩
      rw [padLoop, if_neg hne, if_neg hshort]
      rfl

theorem pyEqOpt_zero_of_thirteen (v : Option Json) (h : pyEqOpt v 0 = true) :
    pyEqOpt v 13 = false := by
  cases v with
  | none => rfl
  | some j =>
    cases j with
    | num n =>
      simp only [pyEqOpt, pyEqInt, beq_iff_eq] at h
      subst h
      rfl
    | bool b =>
      cases b <;> simp_all [pyEqOpt, pyEqInt]
    | null => rfl
    | str s => rfl
    | arr xs => rfl
    | obj fs => rfl

/-- Replacing one entry of a list by a different value changes the list. -/
theorem set_ne_self (l : List Nat) (i v : Nat) (hi : i < l.length) (hv : v ≠ l[i]) :
    l.set i v ≠ l := by
  intro h
  apply hv
  have hq := congrArg (fun t : List Nat => t[i]?) h
  simp only [List.getElem?_set_self hi, List.getElem?_eq_getElem hi] at hq
  exact Option.some_inj.mp hq

/-- Unfolding of the endpoint once the body parses to a JSON dict. -/
theorem qqbot_callback_parse_obj (key : List Nat) (parse : List Nat → Option Json)
    (onC2c : Json → List (List Nat × Json) → Except Unit Unit) (req : QQbotWebhook.Request)
    (fields : List (List Nat × Json)) (hparse : parse req.raw = some (.obj fields)) :
    QQbotWebhook.qqbot_callback key parse onC2c req
      = QQbotWebhook.objBranch key onC2c req fields := by
  unfold QQbotWebhook.qqbot_callback
  rw [hparse]

/-- Unfolding of the operation-code branch when `op == 13`. -/
theorem objBranch_op13 (key : List Nat) (onC2c : Json → List (List Nat × Json) → Except Unit Unit)
    (req : QQbotWebhook.Request) (fields : List (List Nat × Json))
    (hop : pyEqOpt (jlookup fields (utf8 "op")) 13 = true) :
    QQbotWebhook.objBranch key onC2c req fields = QQbotWebhook.op13Branch key fields := by
  unfold QQbotWebhook.objBranch
  rw [hop]
  rfl

/-- Unfolding of the operation-code branch when `op == 0` (in Python
semantics, so `op` is the number `0` or the boolean `False`; either is also
unequal to `13`, so the challenge branch is not taken). -/
theorem objBranch_op0 (key : List Nat) (onC2c : Json → List (List Nat × Json) → Except Unit Unit)
    (req : QQbotWebhook.Request) (fields : List (List Nat × Json))
    (hop : pyEqOpt (jlookup fields (utf8 "op")) 0 = true) :
    QQbotWebhook.objBranch key onC2c req fields
      = QQbotWebhook.op0Branch key onC2c req fields := by
  unfold QQbotWebhook.objBranch
  rw [pyEqOpt_zero_of_thirteen _ hop, hop]
  rfl

/-! ## Claims -/

/-- C1: `seed_from_secret` fails with the configuration error on the empty
secret; for every non-empty secret it returns exactly 32 bytes, obtained by
self-concatenating the byte string some number of rounds (each earlier round
still below 32 bytes, i.e. doubling until the length first reaches 32) and
truncating to the first 32 bytes; in particular, for every secret of length
at least 32 the result is the secret's first 32 bytes. -/
theorem claim_C1_seed_derivation :
    seed_from_secret [] = .error "BOT_SECRET is empty" ∧
    ∀ s : List Nat, s ≠ [] →
      ∃ out, seed_from_secret s = .ok out ∧ out.length = 32 ∧
        (∃ k, out = (iterDouble s k).take 32 ∧ 32 ≤ (iterDouble s k).length ∧
          ∀ j < k, (iterDouble s j).length < 32) ∧
        (32 ≤ s.length → out = s.take 32) := by
  constructor
  · rfl
  · intro s hs
    obtain ⟨k, hpad, hge, hmin⟩ := padLoop_eq_iterDouble (32 - s.length) s hs le_rfl
    refine ⟨(padLoop s).take 32, ?_, ?_, ⟨k, by rw [hpad], hge, hmin⟩, ?_⟩
    · rw [seed_from_secret, if_neg hs]
    · rw [hpad]
      simp only [List.length_take]
      omega
    · intro h32
      rw [padLoop, if_neg hs, if_neg (by omega)]

/-- Witness for C1 at the concrete secret `"ab"`. -/
theorem claim_C1_seed_derivation_witness :
    ∃ out, seed_from_secret (utf8 "ab") = .ok out ∧ out.length = 32 ∧
      (∃ k, out = (iterDouble (utf8 "ab") k).take 32 ∧
        32 ≤ (iterDouble (utf8 "ab") k).length ∧
        ∀ j < k, (iterDouble (utf8 "ab") j).length < 32) ∧
      (32 ≤ (utf8 "ab").length → out = (utf8 "ab").take 32) :=
  claim_C1_seed_derivation.2 (utf8 "ab") (by decide)

/-- C9: dispatching an event type with no registered branch in
`qqbot_utils.handle_event` returns success (no exception), produces exactly
one log entry — an informational one recording the unhandled type — and
invokes no handler. -/
theorem claim_C9_unknown_event_type
    (onC2c onGroup : Json → List (List Nat × Json) → Except Unit Unit)
    (t : List Nat) (event : Json)
    (h1 : t ≠ utf8 "C2C_MESSAGE_CREATE") (h2 : t ≠ utf8 "GROUP_AT_MESSAGE_CREATE") :
    QQbotUtils.handle_event onC2c onGroup t event
      = ⟨.ok (), [.info (utf8 "[qqbot_utils] 未处理的事件类型: " ++ t)], []⟩ := by
  unfold QQbotUtils.handle_event
  rw [if_neg h1, if_neg h2]

/-- Witness for C9 at the concrete unregistered type `"FRIEND_ADD"`. -/
theorem claim_C9_unknown_event_type_witness :
    QQbotUtils.handle_event Fixtures.handlerOk Fixtures.handlerOk
        (utf8 "FRIEND_ADD") (.obj [])
      = ⟨.ok (), [.info (utf8 "[qqbot_utils] 未处理的事件类型: " ++ utf8 "FRIEND_ADD")], []⟩ :=
  claim_C9_unknown_event_type Fixtures.handlerOk Fixtures.handlerOk
    (utf8 "FRIEND_ADD") (.obj []) (by decide) (by decide)

/-- Evaluation of `verify_event_signature` once both headers are non-empty and
the signature header hex-decodes: the result is decided exactly by whether the
decoded signature is the key's signature over `ts ++ raw`. -/
theorem verify_event_signature_eval (key raw ts sigHex s : List Nat)
    (hsig : sigHex ≠ []) (hts : ts ≠ []) (hdec : fromhex? sigHex = some s) :
    WebhookHandler.verify_event_signature key raw (some sigHex) (some ts)
      = if s = nacl_sign key (ts ++ raw) then .ok ()
        else .error (401, "signature verify failed") := by
  unfold WebhookHandler.verify_event_signature
  simp only [Option.getD_some]
  rw [if_neg (show ¬(sigHex = [] ∨ ts = []) from by simp [hsig, hts]), hdec]
  simp only [nacl_verify, nacl_sign, beq_iff_eq]

/-- The ideal signature over a message with a non-empty prefix is non-empty
(so the signature header for it is a non-empty hex string). -/
theorem nacl_sign_ne_nil (key ts raw : List Nat) (hts : ts ≠ []) :
    nacl_sign key (ts ++ raw) ≠ [] := by
  unfold nacl_sign
  intro hc
  have hl := congrArg List.length hc
  have hp := List.length_pos.mpr hts
  simp only [List.length_append, List.length_nil] at hl
  omega

/-- C2: event verification checks the signature against exactly
`ts.encode("utf-8") + raw` — the timestamp header bytes followed by the raw
body bytes as received.  The key's signature over `ts ++ raw` verifies; any
decodable signature verifies iff it is exactly that signature; and changing
any single byte of the body or of the timestamp makes verification fail. -/
theorem claim_C2_event_signature (key raw ts : List Nat)
    (hkey : isBytes key) (hraw : isBytes raw) (hts : isBytes ts) (htsne : ts ≠ []) :
    (WebhookHandler.verify_event_signature key raw
        (some (toHex (nacl_sign key (ts ++ raw)))) (some ts) = .ok ()) ∧
    (∀ sigHex s, fromhex? sigHex = some s → sigHex ≠ [] →
      (WebhookHandler.verify_event_signature key raw (some sigHex) (some ts) = .ok ()
        ↔ s = nacl_sign key (ts ++ raw))) ∧
    (∀ i v, ∀ hi : i < raw.length, v ≠ raw[i] →
      WebhookHandler.verify_event_signature key (raw.set i v)
        (some (toHex (nacl_sign key (ts ++ raw)))) (some ts)
        = .error (401, "signature verify failed")) ∧
    (∀ i v, ∀ hi : i < ts.length, v ≠ ts[i] →
      WebhookHandler.verify_event_signature key raw
        (some (toHex (nacl_sign key (ts ++ raw)))) (some (ts.set i v))
        = .error (401, "signature verify failed")) := by
  have hsb : isBytes (nacl_sign key (ts ++ raw)) :=
    isBytes_append key (ts ++ raw) hkey (isBytes_append ts raw hts hraw)
  have hdec := fromhex_toHex _ hsb
  have hhexne := toHex_ne_nil _ (nacl_sign_ne_nil key ts raw htsne)
  refine ⟨?_, ?_, ?_, ?_⟩
  · rw [verify_event_signature_eval key raw ts _ _ hhexne htsne hdec, if_pos rfl]
  · intro sigHex s hs hne
    rw [verify_event_signature_eval key raw ts sigHex s hne htsne hs]
    by_cases h : s = nacl_sign key (ts ++ raw)
    · simp [h]
    · simp [h]
  · intro i v hi hv
    rw [verify_event_signature_eval key (raw.set i v) ts _ _ hhexne htsne hdec]
    rw [if_neg ?_]
    intro hcontra
    unfold nacl_sign at hcontra
    have h1 := List.append_cancel_left hcontra
    have h2 := List.append_cancel_left h1
    exact set_ne_self raw i v hi hv h2.symm
  · intro i v hi hv
    have htsne2 : ts.set i v ≠ [] := by
      intro hc
      have hl := congrArg List.length hc
      have hp := List.length_pos.mpr htsne
      simp only [List.length_set, List.length_nil] at hl
      omega
    rw [verify_event_signature_eval key raw (ts.set i v) _ _ hhexne htsne2 hdec]
    rw [if_neg ?_]
    intro hcontra
    unfold nacl_sign at hcontra
    have h1 := List.append_cancel_left hcontra
    have h2 : ts = ts.set i v :=
      (List.append_inj h1 (by simp [List.length_set])).1
    exact set_ne_self ts i v hi hv h2.symm

/-- Witness for C2 at a concrete key, body and timestamp. -/
theorem claim_C2_event_signature_witness :
    (WebhookHandler.verify_event_signature Fixtures.keyEx (utf8 "xy")
        (some (toHex (nacl_sign Fixtures.keyEx (utf8 "17" ++ utf8 "xy"))))
        (some (utf8 "17")) = .ok ()) ∧
    (∀ sigHex s, fromhex? sigHex = some s → sigHex ≠ [] →
      (WebhookHandler.verify_event_signature Fixtures.keyEx (utf8 "xy")
          (some sigHex) (some (utf8 "17")) = .ok ()
        ↔ s = nacl_sign Fixtures.keyEx (utf8 "17" ++ utf8 "xy"))) ∧
    (∀ i v, ∀ hi : i < (utf8 "xy").length, v ≠ (utf8 "xy")[i] →
      WebhookHandler.verify_event_signature Fixtures.keyEx ((utf8 "xy").set i v)
        (some (toHex (nacl_sign Fixtures.keyEx (utf8 "17" ++ utf8 "xy"))))
        (some (utf8 "17"))
        = .error (401, "signature verify failed")) ∧
    (∀ i v, ∀ hi : i < (utf8 "17").length, v ≠ (utf8 "17")[i] →
      WebhookHandler.verify_event_signature Fixtures.keyEx (utf8 "xy")
        (some (toHex (nacl_sign Fixtures.keyEx (utf8 "17" ++ utf8 "xy"))))
        (some ((utf8 "17").set i v))
        = .error (401, "signature verify failed")) :=
  claim_C2_event_signature Fixtures.keyEx (utf8 "xy") (utf8 "17")
    (by decide) (by decide) (by decide) (by decide)

/-- The op = 0 branch on empty signature headers. -/
theorem op0Branch_missing (key : List Nat)
    (onC2c : Json → List (List Nat × Json) → Except Unit Unit)
    (req : QQbotWebhook.Request) (fields : List (List Nat × Json))
    (hm : req.sigHeader.getD [] = [] ∨ req.tsHeader.getD [] = []) :
    QQbotWebhook.op0Branch key onC2c req fields
      = ⟨.httpError 401 "missing signature headers", [], []⟩ := by
  simp only [QQbotWebhook.op0Branch]
  rw [if_pos hm]

/-- The op = 0 branch on a signature header that does not hex-decode. -/
theorem op0Branch_badhex (key : List Nat)
    (onC2c : Json → List (List Nat × Json) → Except Unit Unit)
    (req : QQbotWebhook.Request) (fields : List (List Nat × Json))
    (hs : req.sigHeader.getD [] ≠ []) (ht : req.tsHeader.getD [] ≠ [])
    (hh : fromhex? (req.sigHeader.getD []) = none) :
    QQbotWebhook.op0Branch key onC2c req fields
      = ⟨.httpError 401 "bad signature hex", [], []⟩ := by
  simp only [QQbotWebhook.op0Branch]
  rw [if_neg (by simp [hs, ht]), hh]

/-- The op = 0 branch on a decodable signature that fails verification. -/
theorem op0Branch_mismatch (key : List Nat)
    (onC2c : Json → List (List Nat × Json) → Except Unit Unit)
    (req : QQbotWebhook.Request) (fields : List (List Nat × Json)) (sig : List Nat)
    (hs : req.sigHeader.getD [] ≠ []) (ht : req.tsHeader.getD [] ≠ [])
    (hh : fromhex? (req.sigHeader.getD []) = some sig)
    (hv : nacl_verify key (req.tsHeader.getD [] ++ req.raw) sig = false) :
    QQbotWebhook.op0Branch key onC2c req fields
      = ⟨.httpError 401 "signature verify failed", [], []⟩ := by
  simp only [QQbotWebhook.op0Branch]
  rw [if_neg (by simp [hs, ht]), hh]
  simp only [hv]
  rfl

/-- The op = 0 branch on a decodable signature that verifies: control reaches
the dispatch section. -/
theorem op0Branch_verified (key : List Nat)
    (onC2c : Json → List (List Nat × Json) → Except Unit Unit)
    (req : QQbotWebhook.Request) (fields : List (List Nat × Json)) (sig : List Nat)
    (hs : req.sigHeader.getD [] ≠ []) (ht : req.tsHeader.getD [] ≠ [])
    (hh : fromhex? (req.sigHeader.getD []) = some sig)
    (hv : nacl_verify key (req.tsHeader.getD [] ++ req.raw) sig = true) :
    QQbotWebhook.op0Branch key onC2c req fields
      = QQbotWebhook.dispatchSection onC2c fields := by
  simp only [QQbotWebhook.op0Branch]
  rw [if_neg (by simp [hs, ht]), hh]
  simp only [hv]
  rfl

/-- C5: for an op = 0 request, each of the three authentication failures —
missing (empty or absent) signature headers, a signature header that does not
decode as hex, and a cryptographic verification mismatch — terminates the
request with the same HTTP status 401, so the status does not reveal which
check failed. -/
theorem claim_C5_auth_failure_collapse (key : List Nat) (parse : List Nat → Option Json)
    (onC2c : Json → List (List Nat × Json) → Except Unit Unit) (req : QQbotWebhook.Request)
    (fields : List (List Nat × Json))
    (hparse : parse req.raw = some (.obj fields))
    (hop : pyEqOpt (jlookup fields (utf8 "op")) 0 = true) :
    ((req.sigHeader.getD [] = [] ∨ req.tsHeader.getD [] = []) →
      (QQbotWebhook.qqbot_callback key parse onC2c req).outcome
        = .httpError 401 "missing signature headers") ∧
    (req.sigHeader.getD [] ≠ [] → req.tsHeader.getD [] ≠ [] →
      fromhex? (req.sigHeader.getD []) = none →
      (QQbotWebhook.qqbot_callback key parse onC2c req).outcome
        = .httpError 401 "bad signature hex") ∧
    (∀ sig, req.sigHeader.getD [] ≠ [] → req.tsHeader.getD [] ≠ [] →
      fromhex? (req.sigHeader.getD []) = some sig →
      nacl_verify key (req.tsHeader.getD [] ++ req.raw) sig = false →
      (QQbotWebhook.qqbot_callback key parse onC2c req).outcome
        = .httpError 401 "signature verify failed") := by
  refine ⟨?_, ?_, ?_⟩
  · intro hm
    rw [qqbot_callback_parse_obj _ _ _ _ _ hparse, objBranch_op0 _ _ _ _ hop,
      op0Branch_missing _ _ _ _ hm]
  · intro hs ht hh
    rw [qqbot_callback_parse_obj _ _ _ _ _ hparse, objBranch_op0 _ _ _ _ hop,
      op0Branch_badhex _ _ _ _ hs ht hh]
  · intro sig hs ht hh hv
    rw [qqbot_callback_parse_obj _ _ _ _ _ hparse, objBranch_op0 _ _ _ _ hop,
      op0Branch_mismatch _ _ _ _ sig hs ht hh hv]

/-- Witness for C5: three concrete op = 0 requests — headers absent, signature
header not hex, and a decodable but wrong signature — each get status 401. -/
theorem claim_C5_auth_failure_collapse_witness :
    ((QQbotWebhook.qqbot_callback Fixtures.keyEx Fixtures.parseFix Fixtures.handlerOk
        ⟨Fixtures.bodyC2C, none, some Fixtures.tsEx⟩).outcome
      = .httpError 401 "missing signature headers") ∧
    ((QQbotWebhook.qqbot_callback Fixtures.keyEx Fixtures.parseFix Fixtures.handlerOk
        ⟨Fixtures.bodyC2C, some (utf8 "zz"), some Fixtures.tsEx⟩).outcome
      = .httpError 401 "bad signature hex") ∧
    ((QQbotWebhook.qqbot_callback Fixtures.keyEx Fixtures.parseFix Fixtures.handlerOk
        ⟨Fixtures.bodyC2C, some (toHex (nacl_sign Fixtures.keyEx (utf8 "x"))),
          some Fixtures.tsEx⟩).outcome
      = .httpError 401 "signature verify failed") :=
  ⟨(claim_C5_auth_failure_collapse Fixtures.keyEx Fixtures.parseFix Fixtures.handlerOk
      ⟨Fixtures.bodyC2C, none, some Fixtures.tsEx⟩ _ (by rfl) (by decide)).1
    (Or.inl rfl),
   (claim_C5_auth_failure_collapse Fixtures.keyEx Fixtures.parseFix Fixtures.handlerOk
      ⟨Fixtures.bodyC2C, some (utf8 "zz"), some Fixtures.tsEx⟩ _ (by rfl) (by decide)).2.1
    (by decide) (by decide) (by decide),
   (claim_C5_auth_failure_collapse Fixtures.keyEx Fixtures.parseFix Fixtures.handlerOk
      ⟨Fixtures.bodyC2C, some (toHex (nacl_sign Fixtures.keyEx (utf8 "x"))),
        some Fixtures.tsEx⟩ _ (by rfl) (by decide)).2.2
    (nacl_sign Fixtures.keyEx (utf8 "x")) (by decide) (by decide) (by decide) (by decide)⟩

/-- C6: for an op = 0 request on which any signature check fails — missing
headers, undecodable hex, or verification mismatch — the request terminates
with a 401 before the dispatch section: no `(t, d)` pair is dispatched and no
handler is invoked. -/
theorem claim_C6_auth_before_dispatch (key : List Nat) (parse : List Nat → Option Json)
    (onC2c : Json → List (List Nat × Json) → Except Unit Unit) (req : QQbotWebhook.Request)
    (fields : List (List Nat × Json))
    (hparse : parse req.raw = some (.obj fields))
    (hop : pyEqOpt (jlookup fields (utf8 "op")) 0 = true)
    (hfail : (req.sigHeader.getD [] = [] ∨ req.tsHeader.getD [] = []) ∨
      fromhex? (req.sigHeader.getD []) = none ∨
      (∀ sig, fromhex? (req.sigHeader.getD []) = some sig →
        nacl_verify key (req.tsHeader.getD [] ++ req.raw) sig = false)) :
    (QQbotWebhook.qqbot_callback key parse onC2c req).dispatched = [] ∧
    (QQbotWebhook.qqbot_callback key parse onC2c req).handlerCalls = [] := by
  rw [qqbot_callback_parse_obj _ _ _ _ _ hparse, objBranch_op0 _ _ _ _ hop]
  by_cases hm : req.sigHeader.getD [] = [] ∨ req.tsHeader.getD [] = []
  · rw [op0Branch_missing _ _ _ _ hm]
    exact ⟨rfl, rfl⟩
  · push_neg at hm
    rcases hfail with hmiss | hhex | hver
    · exact absurd hmiss (by simp [hm.1, hm.2])
    · rw [op0Branch_badhex _ _ _ _ hm.1 hm.2 hhex]
      exact ⟨rfl, rfl⟩
    · cases hfx : fromhex? (req.sigHeader.getD []) with
      | none =>
        rw [op0Branch_badhex _ _ _ _ hm.1 hm.2 hfx]
        exact ⟨rfl, rfl⟩
      | some sig =>
        rw [op0Branch_mismatch _ _ _ _ sig hm.1 hm.2 hfx (hver sig hfx)]
        exact ⟨rfl, rfl⟩

/-- Witness for C6 at a concrete op = 0 request with no signature headers. -/
theorem claim_C6_auth_before_dispatch_witness :
    (QQbotWebhook.qqbot_callback Fixtures.keyEx Fixtures.parseFix Fixtures.handlerOk
        ⟨Fixtures.bodyC2C, none, none⟩).dispatched = [] ∧
    (QQbotWebhook.qqbot_callback Fixtures.keyEx Fixtures.parseFix Fixtures.handlerOk
        ⟨Fixtures.bodyC2C, none, none⟩).handlerCalls = [] :=
  claim_C6_auth_before_dispatch Fixtures.keyEx Fixtures.parseFix Fixtures.handlerOk
    ⟨Fixtures.bodyC2C, none, none⟩ _ (by rfl) (by decide) (Or.inl (Or.inl rfl))

/-- C10: for an op = 0 request, a signature header present with the empty
string as value is handled exactly like an absent header: any combination of
empty-string and absent values for the two headers produces the same result
as both headers being absent, namely the missing-signature-headers 401,
before hex decoding or verification is attempted (the detail string is the
missing-headers one even though the empty string would hex-decode). -/
theorem claim_C10_empty_header_is_missing (key : List Nat) (parse : List Nat → Option Json)
    (onC2c : Json → List (List Nat × Json) → Except Unit Unit) (raw : List Nat)
    (fields : List (List Nat × Json)) (sh th : Option (List Nat))
    (hparse : parse raw = some (.obj fields))
    (hop : pyEqOpt (jlookup fields (utf8 "op")) 0 = true)
    (hsh : sh = none ∨ sh = some []) (hth : th = none ∨ th = some []) :
    QQbotWebhook.qqbot_callback key parse onC2c ⟨raw, sh, th⟩
      = QQbotWebhook.qqbot_callback key parse onC2c ⟨raw, none, none⟩ ∧
    (QQbotWebhook.qqbot_callback key parse onC2c ⟨raw, sh, th⟩).outcome
      = .httpError 401 "missing signature headers" := by
  have e1 : QQbotWebhook.qqbot_callback key parse onC2c ⟨raw, sh, th⟩
      = ⟨.httpError 401 "missing signature headers", [], []⟩ := by
    rw [qqbot_callback_parse_obj _ _ _ _ _ hparse, objBranch_op0 _ _ _ _ hop,
      op0Branch_missing]
    rcases hsh with rfl | rfl
    · exact Or.inl rfl
    · exact Or.inl rfl
  have e2 : QQbotWebhook.qqbot_callback key parse onC2c ⟨raw, none, none⟩
      = ⟨.httpError 401 "missing signature headers", [], []⟩ := by
    rw [qqbot_callback_parse_obj _ _ _ _ _ hparse, objBranch_op0 _ _ _ _ hop,
      op0Branch_missing]
    exact Or.inl rfl
  exact ⟨e1.trans e2.symm, by rw [e1]⟩

/-- Witness for C10: both headers present but empty. -/
theorem claim_C10_empty_header_is_missing_witness :
    QQbotWebhook.qqbot_callback Fixtures.keyEx Fixtures.parseFix Fixtures.handlerOk
        ⟨Fixtures.bodyC2C, some [], some []⟩
      = QQbotWebhook.qqbot_callback Fixtures.keyEx Fixtures.parseFix Fixtures.handlerOk
        ⟨Fixtures.bodyC2C, none, none⟩ ∧
    (QQbotWebhook.qqbot_callback Fixtures.keyEx Fixtures.parseFix Fixtures.handlerOk
        ⟨Fixtures.bodyC2C, some [], some []⟩).outcome
      = .httpError 401 "missing signature headers" :=
  claim_C10_empty_header_is_missing Fixtures.keyEx Fixtures.parseFix Fixtures.handlerOk
    Fixtures.bodyC2C _ (some []) (some []) (by rfl) (by decide)
    (Or.inr rfl) (Or.inr rfl)

/-- C7 (amended): for every verified op = 0 `C2C_MESSAGE_CREATE` event, the
dispatch section receives the envelope's `t` and `d` verbatim, but the bot
handler is invoked with `event.get("id", "")` and the `MessagePayload` built
by `build_message_payload` from `d` — `d` with defaults filled in for the
missing fixed keys — not with `d` itself. -/
theorem claim_C7_amended_dispatch_payload (key : List Nat) (parse : List Nat → Option Json)
    (onC2c : Json → List (List Nat × Json) → Except Unit Unit) (req : QQbotWebhook.Request)
    (fields ed : List (List Nat × Json)) (ts : List Nat)
    (hparse : parse req.raw = some (.obj fields))
    (hop : pyEqOpt (jlookup fields (utf8 "op")) 0 = true)
    (hsig : req.sigHeader = some (toHex (nacl_sign key (ts ++ req.raw))))
    (hts : req.tsHeader = some ts) (htsne : ts ≠ [])
    (hkey : isBytes key) (hraw : isBytes req.raw) (htsb : isBytes ts)
    (ht : pyGet fields (utf8 "t") (.str []) = .str (utf8 "C2C_MESSAGE_CREATE"))
    (hd : pyGet fields (utf8 "d") (.obj []) = .obj ed) :
    (QQbotWebhook.qqbot_callback key parse onC2c req).dispatched
      = [(.str (utf8 "C2C_MESSAGE_CREATE"), .obj ed)] ∧
    (QQbotWebhook.qqbot_callback key parse onC2c req).handlerCalls
      = [⟨pyGet ed (utf8 "id") (.str []), QQbotWebhook.build_message_payload ed⟩] := by
  have hsg : req.sigHeader.getD [] = toHex (nacl_sign key (ts ++ req.raw)) := by
    rw [hsig]
    rfl
  have htg : req.tsHeader.getD [] = ts := by
    rw [hts]
    rfl
  have hsb : isBytes (nacl_sign key (ts ++ req.raw)) :=
    isBytes_append key (ts ++ req.raw) hkey (isBytes_append ts req.raw htsb hraw)
  rw [qqbot_callback_parse_obj _ _ _ _ _ hparse, objBranch_op0 _ _ _ _ hop,
    op0Branch_verified _ _ _ _ (nacl_sign key (ts ++ req.raw))
      (by rw [hsg]; exact toHex_ne_nil _ (nacl_sign_ne_nil key ts req.raw htsne))
      (by rw [htg]; exact htsne)
      (by rw [hsg]; exact fromhex_toHex _ hsb)
      (by rw [htg]; simp [nacl_verify, nacl_sign])]
  simp only [QQbotWebhook.dispatchSection, ht, hd, if_pos]
  cases honc : onC2c (pyGet ed (utf8 "id") (.str [])) (QQbotWebhook.build_message_payload ed) <;>
    exact ⟨rfl, rfl⟩

/-- Counterexample to C7 as stated: at the concrete verified event with
`d = {"id":"m1","content":"hi"}`, the handler observes the payload built by
`build_message_payload`, whose key set differs from `d`'s — fields were
added/defaulted, so the handler does not observe exactly `d`. -/
theorem claim_C7_counterexample :
    (QQbotWebhook.qqbot_callback Fixtures.keyEx Fixtures.parseFix Fixtures.handlerOk
        Fixtures.reqC2C).handlerCalls
      = [⟨Json.str (utf8 "m1"), QQbotWebhook.build_message_payload Fixtures.dEx⟩] ∧
    (QQbotWebhook.build_message_payload Fixtures.dEx).map Prod.fst
      ≠ Fixtures.dEx.map Prod.fst :=
  ⟨rfl, by decide⟩

/-- Witness for the amended C7 at the concrete verified request. -/
theorem claim_C7_amended_dispatch_payload_witness :
    (QQbotWebhook.qqbot_callback Fixtures.keyEx Fixtures.parseFix Fixtures.handlerOk
        Fixtures.reqC2C).dispatched
      = [(.str (utf8 "C2C_MESSAGE_CREATE"), .obj Fixtures.dEx)] ∧
    (QQbotWebhook.qqbot_callback Fixtures.keyEx Fixtures.parseFix Fixtures.handlerOk
        Fixtures.reqC2C).handlerCalls
      = [⟨pyGet Fixtures.dEx (utf8 "id") (.str []),
          QQbotWebhook.build_message_payload Fixtures.dEx⟩] :=
  claim_C7_amended_dispatch_payload Fixtures.keyEx Fixtures.parseFix Fixtures.handlerOk
    Fixtures.reqC2C _ Fixtures.dEx Fixtures.tsEx (by rfl) (by decide) (by rfl) (by rfl)
    (by decide) (by decide) (by decide) (by decide) (by rfl) (by rfl)

/-- C3 (amended): for every parsed payload with op equal to 13 whose `d`
value — after `payload.get("d") or {}` replaces an absent or falsy `d` by the
empty dict — is a dict, and whose `plain_token`/`event_ts` entries are
strings when present (absent ones default to the empty string rather than
erroring), the endpoint responds 200 OK with JSON body
`{plain_token, signature}` where the signature is the lowercase hex of the
key's signature over `event_ts ++ plain_token` (no separator). -/
theorem claim_C3_amended_challenge (key : List Nat) (parse : List Nat → Option Json)
    (onC2c : Json → List (List Nat × Json) → Except Unit Unit) (req : QQbotWebhook.Request)
    (fields dd : List (List Nat × Json)) (pt ets : List Nat)
    (hparse : parse req.raw = some (.obj fields))
    (hop : pyEqOpt (jlookup fields (utf8 "op")) 13 = true)
    (hd : QQbotWebhook.challengeDict fields = .obj dd)
    (hpt : pyGet dd (utf8 "plain_token") (.str []) = .str pt)
    (hets : pyGet dd (utf8 "event_ts") (.str []) = .str ets) :
    (QQbotWebhook.qqbot_callback key parse onC2c req).outcome
      = .json200 pt (toHex (nacl_sign key (ets ++ pt))) := by
  rw [qqbot_callback_parse_obj _ _ _ _ _ hparse, objBranch_op13 _ _ _ _ hop]
  simp only [QQbotWebhook.op13Branch, hd, hpt, hets]

/-- Counterexample to C3 as stated: the parsed payload `{"op":13,"d":5}` has
op equal to 13, but the endpoint does not respond 200 with a JSON body — the
truthy non-dict `d` raises AttributeError at `d.get`, which escapes the
endpoint (a 500, under FastAPI).  In particular the response is not the
challenge response with defaulted empty fields. -/
theorem claim_C3_counterexample :
    (QQbotWebhook.qqbot_callback Fixtures.keyEx Fixtures.parseFix Fixtures.handlerOk
        ⟨Fixtures.bodyChal, none, none⟩).outcome = .pyError ∧
    (QQbotWebhook.qqbot_callback Fixtures.keyEx Fixtures.parseFix Fixtures.handlerOk
        ⟨Fixtures.bodyChal, none, none⟩).outcome
      ≠ .json200 [] (toHex (nacl_sign Fixtures.keyEx ([] ++ []))) :=
  ⟨by decide, by decide⟩

/-- Witness for the amended C3 at the payload `{"op":13}` (no `d` at all):
both fields default to the empty string and the signature is over the empty
message. -/
theorem claim_C3_amended_challenge_witness :
    (QQbotWebhook.qqbot_callback Fixtures.keyEx Fixtures.parseFix Fixtures.handlerOk
        ⟨Fixtures.bodyChalOk, none, none⟩).outcome
      = .json200 [] (toHex (nacl_sign Fixtures.keyEx ([] ++ []))) :=
  claim_C3_amended_challenge Fixtures.keyEx Fixtures.parseFix Fixtures.handlerOk
    ⟨Fixtures.bodyChalOk, none, none⟩ [(utf8 "op", .num 13)] [] [] []
    (by rfl) (by decide) (by rfl) (by rfl) (by rfl)

/-- C8 (amended): a body that does not parse (invalid JSON or invalid UTF-8)
gets 400 Bad Request; a body that parses to a JSON dict whose `op` entry is
absent or Python-unequal to both 13 and 0 gets a 200 OK with empty body and
no dispatch.  (As stated the claim also covered valid JSON bodies that are
not dicts; those instead raise at `payload.get` — see the counterexample.) -/
theorem claim_C8_amended_fallback (key : List Nat) (parse : List Nat → Option Json)
    (onC2c : Json → List (List Nat × Json) → Except Unit Unit) (req : QQbotWebhook.Request)
    (fields : List (List Nat × Json)) :
    (parse req.raw = none →
      (QQbotWebhook.qqbot_callback key parse onC2c req).outcome
        = .httpError 400 "invalid json") ∧
    (parse req.raw = some (.obj fields) →
      pyEqOpt (jlookup fields (utf8 "op")) 13 = false →
      pyEqOpt (jlookup fields (utf8 "op")) 0 = false →
      QQbotWebhook.qqbot_callback key parse onC2c req = ⟨.empty200, [], []⟩) := by
  constructor
  · intro hnone
    unfold QQbotWebhook.qqbot_callback
    rw [hnone]
  · intro hparse h13 h0
    rw [qqbot_callback_parse_obj _ _ _ _ _ hparse]
    unfold QQbotWebhook.objBranch
    rw [h13, h0]
    rfl

/-- Counterexample to C8 as stated: the body `5` is valid JSON and has no
`op` field, but the endpoint does not respond 200 — `payload.get("op")` on
the parsed integer raises AttributeError, which escapes the endpoint (a 500
under FastAPI). -/
theorem claim_C8_counterexample :
    (QQbotWebhook.qqbot_callback Fixtures.keyEx Fixtures.parseFix Fixtures.handlerOk
        ⟨Fixtures.bodyNum, none, none⟩).outcome = .pyError ∧
    (QQbotWebhook.qqbot_callback Fixtures.keyEx Fixtures.parseFix Fixtures.handlerOk
        ⟨Fixtures.bodyNum, none, none⟩).outcome ≠ .empty200 :=
  ⟨by decide, by decide⟩

/-- Witness for the amended C8: the unparsable body `oops` gets 400, and the
dict body `{"op":7}` gets the empty 200 with nothing dispatched. -/
theorem claim_C8_amended_fallback_witness :
    ((QQbotWebhook.qqbot_callback Fixtures.keyEx Fixtures.parseFix Fixtures.handlerOk
        ⟨Fixtures.bodyBad, none, none⟩).outcome = .httpError 400 "invalid json") ∧
    (QQbotWebhook.qqbot_callback Fixtures.keyEx Fixtures.parseFix Fixtures.handlerOk
        ⟨Fixtures.bodyOp7, none, none⟩ = ⟨.empty200, [], []⟩) :=
  ⟨(claim_C8_amended_fallback Fixtures.keyEx Fixtures.parseFix Fixtures.handlerOk
      ⟨Fixtures.bodyBad, none, none⟩ []).1 (by rfl),
   (claim_C8_amended_fallback Fixtures.keyEx Fixtures.parseFix Fixtures.handlerOk
      ⟨Fixtures.bodyOp7, none, none⟩ [(utf8 "op", .num 7)]).2 (by rfl) (by decide) (by decide)⟩

/-- C4 (code bug): at a fully verified op = 0 `C2C_MESSAGE_CREATE` request
whose handler raises, the endpoint does not respond 200 — the handler
exception is not caught anywhere in `qqbot_callback` (lines 136-153 have no
try/except around the handler call), so it escapes the endpoint and FastAPI
answers 500.  The claim (and the source's own `# 立刻ACK，避免平台重试`
comment) say the endpoint should still ACK with 200. -/
theorem claim_C4_handler_failure_escapes :
    (QQbotWebhook.qqbot_callback Fixtures.keyEx Fixtures.parseFix Fixtures.handlerBoom
        Fixtures.reqC2C).outcome = .pyError ∧
    (QQbotWebhook.qqbot_callback Fixtures.keyEx Fixtures.parseFix Fixtures.handlerBoom
        Fixtures.reqC2C).outcome ≠ .empty200 ∧
    (QQbotWebhook.qqbot_callback Fixtures.keyEx Fixtures.parseFix Fixtures.handlerOk
        Fixtures.reqC2C).outcome = .empty200 :=
  ⟨by decide, by decide, by decide⟩
